import Mathlib

/-!
Verification of the FluidSolver network solver (src/solver.js, src/constants.js).

The JavaScript numeric code is shallowly embedded over the real numbers `ℝ`.
`Math.sqrt`, `Math.pow` and `Math.log10` are modelled by `Real.sqrt`,
`Real.rpow` and `Real.logb 10`.  The explicit `Infinity` values returned by
the valve-resistance functions are modelled with `EReal` (`⊤` standing for
`Infinity`); everywhere else the extended values never arise on the inputs
the theorems quantify over.  Optional JavaScript object fields are modelled
with `Option ℝ` / `Option String`, and the JavaScript `x || d` idiom (which
treats `0`, `''`, `null` and `undefined` as falsy) is modelled by `jsOr` and
`jsStrTruthy` below.  Dictionaries keyed by node/pipe ids are modelled as
functions `String → _` updated with `Function.update`.
-/

noncomputable section

namespace FluidSolver

/-- JavaScript `x || d` for an optional numeric field: `undefined`, `null`
and `0` fall through to the default. -/
def jsOr (x : Option ℝ) (d : ℝ) : ℝ :=
  match x with
  | none => d
  | some v => if v = 0 then d else v

/-- JavaScript truthiness of an optional string (empty string is falsy). -/
def jsStrTruthy (s : Option String) : Prop :=
  match s with
  | none => False
  | some v => v ≠ ""

instance (s : Option String) : Decidable (jsStrTruthy s) := by
  unfold jsStrTruthy
  cases s with
  | none => exact inferInstance
  | some v => exact inferInstance

/-- Fluid property record, as produced by `getFluidProperties` in
`constants.js` and consumed by the solver.  Fields that a liquid/gas record
may lack are `Option`s.  The display-only `name` field is omitted. -/
structure Fluid where
  type : String
  density : ℝ
  viscosity : ℝ
  gamma : Option ℝ := none
  vaporPressure : Option ℝ := none
  molecularWeight : Option ℝ := none
  temperature : Option ℝ := none
  pressure : Option ℝ := none
  Tref : Option ℝ := none
  sutherlandS : Option ℝ := none

/-- `criticalPressureRatio` from constants.js:
`Math.pow(2 / (gamma + 1), gamma / (gamma - 1))`. -/
def criticalPressureRatio (gamma : ℝ) : ℝ :=
  (2 / (gamma + 1)) ^ (gamma / (gamma - 1))

/-- `isentropicTemperature` from constants.js. -/
def isentropicTemperature (T1 P1 P2 gamma : ℝ) : ℝ :=
  if P1 ≤ 0 ∨ P2 ≤ 0 ∨ T1 ≤ 0 then T1
  else T1 * (P2 / P1) ^ ((gamma - 1) / gamma)

/-- `gasDensityAtPT` from constants.js (`R_UNIVERSAL = 8.314462`). -/
def gasDensityAtPT (P T M : ℝ) : ℝ :=
  if T ≤ 0 ∨ P ≤ 0 then 0 else (P * M) / (8.314462 * T)

/-- `sutherlandViscosity` from constants.js. -/
def sutherlandViscosity (T muRef Tref S : ℝ) : ℝ :=
  muRef * (T / Tref) ^ (1.5 : ℝ) * (Tref + S) / (T + S)

/-- `getLocalFluidProperties` from constants.js.  The name-table viscosity
fallback `FLUID_DATA[getFluidKey(baseFluid)]?.muRef` (display-name string
matching, only reachable when `baseFluid.viscosity` is falsy) is collapsed
to its final default `0.0000182`. -/
def getLocalFluidProperties (baseFluid : Fluid) (localP localT : ℝ) : Fluid :=
  if baseFluid.type ≠ "gas" then
    { baseFluid with pressure := some localP, temperature := some localT }
  else
    let density := gasDensityAtPT localP localT (baseFluid.molecularWeight.getD 0)
    let muRefEff := if baseFluid.viscosity = 0 then 0.0000182 else baseFluid.viscosity
    let viscosity :=
      sutherlandViscosity localT muRefEff (jsOr baseFluid.Tref 293.15)
        (jsOr baseFluid.sutherlandS 110.4)
    { baseFluid with density := density, viscosity := viscosity,
                     pressure := some localP, temperature := some localT }

/-- `frictionFactor` from solver.js. -/
def frictionFactor (Re diameter roughness : ℝ) : ℝ :=
  if Re < 2300 then
    if 0 < Re then 64 / Re else 0.02
  else
    0.25 / (Real.logb 10 (roughness / diameter / 3.7 + 5.74 / Re ^ (0.9 : ℝ))) ^ 2

/-- `incompressibleMassFlow` from solver.js. -/
def incompressibleMassFlow (Cd area P1 P2 : ℝ) (fluid : Fluid) : ℝ :=
  if P1 - P2 ≤ 0 then 0
  else Cd * area * Real.sqrt (2 * fluid.density * (P1 - P2))

/-- `chokedLiquidMassFlow` from solver.js. -/
def chokedLiquidMassFlow (Cd area P1 : ℝ) (fluid : Fluid) : ℝ :=
  let Pv := jsOr fluid.vaporPressure 0
  if P1 - Pv ≤ 0 then 0
  else Cd * area * Real.sqrt (2 * fluid.density * (P1 - Pv))

/-- `compressibleMassFlowUnchoked` from solver.js. -/
def compressibleMassFlowUnchoked (Cd area P1 P2 : ℝ) (fluid : Fluid) : ℝ :=
  let gamma := jsOr fluid.gamma 1.4
  let rho1 := fluid.density
  let pressureRatio := P2 / P1
  if 1 ≤ pressureRatio then 0
  else
    let flowFunction :=
      pressureRatio ^ (2 / gamma) - pressureRatio ^ ((gamma + 1) / gamma)
    Cd * area * Real.sqrt (2 * rho1 * P1 * (gamma / (gamma - 1)) * flowFunction)

/-- `chokedGasMassFlow` from solver.js. -/
def chokedGasMassFlow (Cd area P1 : ℝ) (fluid : Fluid) : ℝ :=
  let gamma := jsOr fluid.gamma 1.4
  let rho1 := fluid.density
  let chokedCoeff := (2 / (gamma + 1)) ^ ((gamma + 1) / (2 * (gamma - 1)))
  Cd * area * Real.sqrt (gamma * rho1 * P1) * chokedCoeff

/-- Result record of `restrictionMassFlow`. -/
structure RestrictionResult where
  massFlow : ℝ
  isChoked : Bool
  flowRegime : String

/-- `restrictionMassFlow` from solver.js. -/
def restrictionMassFlow (Cd area P1 P2 : ℝ) (fluid : Fluid) : RestrictionResult :=
  if P1 ≤ P2 then
    { massFlow := 0, isChoked := false, flowRegime := "no_flow" }
  else if fluid.type = "gas" then
    let gamma := jsOr fluid.gamma 1.4
    let criticalRatio := criticalPressureRatio gamma
    if P2 / P1 ≤ criticalRatio then
      { massFlow := chokedGasMassFlow Cd area P1 fluid, isChoked := true,
        flowRegime := "choked_gas" }
    else
      { massFlow := compressibleMassFlowUnchoked Cd area P1 P2 fluid,
        isChoked := false, flowRegime := "subsonic_gas" }
  else
    let Pv := jsOr fluid.vaporPressure 0
    if P2 ≤ Pv then
      { massFlow := chokedLiquidMassFlow Cd area P1 fluid, isChoked := true,
        flowRegime := "choked_liquid" }
    else
      { massFlow := incompressibleMassFlow Cd area P1 P2 fluid,
        isChoked := false, flowRegime := "incompressible" }

/-- Valve sub-entity of a pipe (all fields optional in the JS objects). -/
structure Valve where
  specMode : Option String := none
  Cd : Option ℝ := none
  diameter : Option ℝ := none
  area : Option ℝ := none
  CdA : Option ℝ := none
  Cv : Option ℝ := none

/-- Orifice sub-entity of a pipe. -/
structure Orifice where
  diameter : Option ℝ := none
  ratio : Option ℝ := none
  Cd : Option ℝ := none

/-- Pipe entity (`id`, `fromNode`, `toNode`, geometry, optional valve and
orifice). -/
structure Pipe where
  id : String
  fromNode : String
  toNode : String
  diameter : ℝ
  length : ℝ
  valve : Option Valve := none
  orifice : Option Orifice := none

/-- Node entity (`id`, `type` ∈ {"boundary", "junction"}, fixed pressure for
boundary nodes). -/
structure Node where
  id : String
  type : String
  pressure : ℝ

/-- The pipe cross-section area `Math.PI * Math.pow(pipe.diameter / 2, 2)`
computed inline at several places in solver.js. -/
def pipeArea (pipe : Pipe) : ℝ :=
  Real.pi * (pipe.diameter / 2) ^ 2

/-- `valveResistanceFromCdA` from solver.js.  The JS guard
`!Cd || Cd <= 0 || !area || area <= 0` returns `Infinity`, modelled as `⊤`. -/
def valveResistanceFromCdA (Cd area : ℝ) (fluid : Fluid) : EReal :=
  if Cd ≤ 0 ∨ area ≤ 0 then ⊤
  else ((fluid.density / (2 * (Cd * area) * (Cd * area)) : ℝ) : EReal)

/-- `valveResistanceFromCdAProduct` from solver.js. -/
def valveResistanceFromCdAProduct (CdA : ℝ) (fluid : Fluid) : EReal :=
  if CdA ≤ 0 then ⊤
  else ((fluid.density / (2 * CdA * CdA) : ℝ) : EReal)

/-- `valveResistanceFromCv` from solver.js. -/
def valveResistanceFromCv (Cv : ℝ) (fluid : Fluid) : EReal :=
  if Cv ≤ 0 then ⊤
  else
    let SG := fluid.density / 998
    let cvSI := Cv * 7.599e-7
    ((SG / (cvSI * cvSI) : ℝ) : EReal)

/-- `orificeKFromDiameter` from solver.js. -/
def orificeKFromDiameter (orificeDiameter pipeDiameter Cd : ℝ) : ℝ :=
  if orificeDiameter ≤ 0 ∨ pipeDiameter ≤ orificeDiameter then 0
  else
    let beta := orificeDiameter / pipeDiameter
    let beta4 := beta ^ 4
    (1 - beta4) / (Cd * Cd * beta4)

/-- `orificeK` from solver.js. -/
def orificeK (orificeRatio Cd : ℝ) : ℝ :=
  if orificeRatio ≤ 0 ∨ 1 ≤ orificeRatio then 0
  else
    let beta4 := orificeRatio ^ 4
    (1 - beta4) / (Cd * Cd * beta4)

/-- `getValveCdA` from solver.js (returns `null` when no valve spec applies). -/
def getValveCdA (valve : Option Valve) (pipeDiameter pipeArea : ℝ) : Option ℝ :=
  match valve with
  | none => none
  | some v =>
    if ¬ jsStrTruthy v.specMode ∨ v.specMode = some "none" then none
    else
      match v.specMode with
      | none => none
      | some m =>
        if m = "cd_diameter" then
          let valveDiameter := jsOr v.diameter pipeDiameter
          let valveArea := Real.pi * (valveDiameter / 2) ^ 2
          some (jsOr v.Cd 0.62 * valveArea)
        else if m = "cd_area" then
          some (jsOr v.Cd 0.62 * jsOr v.area pipeArea)
        else if m = "cda" then
          some (jsOr v.CdA 0)
        else if m = "cv" then
          some (jsOr v.Cv 0 * 2.6e-5)
        else none

/-- The `R_valve` block of `pipeResistance` in solver.js (factored out so the
valve term can be named in theorems).  Mirrors the spec-mode `if`/`else if`
chain, plus the legacy `pipe.valve.Cv > 0` fallback. -/
def pipeValveResistance (pipe : Pipe) (fluid : Fluid) : EReal :=
  match pipe.valve with
  | none => 0
  | some v =>
    if jsStrTruthy v.specMode ∧ v.specMode ≠ some "none" then
      match v.specMode with
      | none => 0
      | some m =>
        if m = "cd_diameter" then
          let valveDiameter := jsOr v.diameter pipe.diameter
          let valveArea := Real.pi * (valveDiameter / 2) ^ 2
          valveResistanceFromCdA (jsOr v.Cd 0.62) valveArea fluid
        else if m = "cd_area" then
          valveResistanceFromCdA (jsOr v.Cd 0.62) (jsOr v.area (pipeArea pipe)) fluid
        else if m = "cda" then
          valveResistanceFromCdAProduct (jsOr v.CdA 0) fluid
        else if m = "cv" then
          valveResistanceFromCv (jsOr v.Cv 0) fluid
        else 0
    else
      match v.Cv with
      | some c => if 0 < c then valveResistanceFromCv c fluid else 0
      | none => 0

/-- The `K_orifice` computation of `pipeResistance` in solver.js. -/
def pipeOrificeK (pipe : Pipe) : ℝ :=
  match pipe.orifice with
  | none => 0
  | some o =>
    if 0 < o.diameter.getD 0 then
      orificeKFromDiameter (o.diameter.getD 0) pipe.diameter (jsOr o.Cd 0.62)
    else if 0 < o.ratio.getD 0 ∧ o.ratio.getD 0 < 1 then
      orificeK (o.ratio.getD 0) (jsOr o.Cd 0.62)
    else 0

/-- `pipeResistance` from solver.js: friction + valve + orifice terms. -/
def pipeResistance (pipe : Pipe) (fluid : Fluid) : EReal :=
  let A := pipeArea pipe
  let f : ℝ := 0.02
  let K_friction := f * (pipe.length / pipe.diameter)
  let R_friction := K_friction * fluid.density / (2 * A * A)
  let R_orifice := pipeOrificeK pipe * fluid.density / (2 * A * A)
  (R_friction : EReal) + pipeValveResistance pipe fluid + (R_orifice : EReal)

/-- Solver-local working state: the `pressures`, `temperatures`, `flowRates`,
`chokedStatus` and `localFluids` dictionaries of `solveNetwork`, modelled as
total functions on ids (keys never written read back their initial value). -/
structure SolverState where
  pressures : String → ℝ
  temperatures : String → ℝ
  flowRates : String → ℝ
  choked : String → Bool × String
  localFluids : String → Option Fluid

/-- Per-call context of `solveNetwork` fixed before the iteration loop. -/
structure SolverCtx where
  nodes : List Node
  pipes : List Pipe
  fluid : Fluid
  internalNodes : List Node
  inletPressure : ℝ
  inletTemperature : ℝ
  gamma : ℝ

/-- Boundary-node sublist, `nodes.filter(n => n.type === 'boundary')`. -/
def boundaryNodesOf (nodes : List Node) : List Node :=
  nodes.filter fun n => n.type == "boundary"

/-- Builds the per-call context of `solveNetwork` (solver.js lines 496-508).
The inlet node is the highest-pressure boundary node, via
`boundaryNodes.reduce((max, n) => n.pressure > max.pressure ? n : max,
boundaryNodes[0])`. -/
def mkCtx (nodes : List Node) (pipes : List Pipe) (fluid : Fluid) : SolverCtx :=
  let boundaryNodes := boundaryNodesOf nodes
  let inletNode :=
    boundaryNodes.foldl (fun m n => if m.pressure < n.pressure then n else m)
      (boundaryNodes.headD { id := "", type := "", pressure := 0 })
  { nodes := nodes, pipes := pipes, fluid := fluid,
    internalNodes := nodes.filter fun n => n.type == "junction",
    inletPressure := inletNode.pressure,
    inletTemperature := jsOr fluid.temperature 293.15,
    gamma := jsOr fluid.gamma 1.4 }

/-- Initial solver state (solver.js lines 510-538): boundary pressures fixed,
junction pressures seeded at the mean boundary pressure; boundary
temperatures seeded isentropically from the inlet for gases; zero flows,
`{isChoked: false, flowRegime: 'unknown'}` choke status, empty local-fluid
cache. -/
def initState (nodes : List Node) (pipes : List Pipe) (fluid : Fluid) : SolverState :=
  let ctx := mkCtx nodes pipes fluid
  let boundaryNodes := boundaryNodesOf nodes
  let avgPressure :=
    boundaryNodes.foldl (fun s n => s + n.pressure) 0 / (boundaryNodes.length : ℝ)
  { pressures :=
      nodes.foldl
        (fun p n =>
          Function.update p n.id (if n.type = "boundary" then n.pressure else avgPressure))
        fun _ => 0,
    temperatures :=
      nodes.foldl
        (fun t n =>
          Function.update t n.id
            (if n.type = "boundary" then
              if fluid.type = "gas" then
                isentropicTemperature ctx.inletTemperature ctx.inletPressure n.pressure ctx.gamma
              else ctx.inletTemperature
            else ctx.inletTemperature))
        fun _ => 0,
    flowRates := fun _ => 0,
    choked := fun _ => (false, "unknown"),
    localFluids := fun _ => none }

/-- Adjacency of a node (solver.js lines 541-548): the incident pipes with
direction sign `+1` for `fromNode`, `-1` for `toNode`. -/
def connectionsOf (pipes : List Pipe) (nid : String) : List (Pipe × ℝ) :=
  pipes.flatMap fun p =>
    (if p.fromNode = nid then [(p, (1 : ℝ))] else []) ++
      (if p.toNode = nid then [(p, (-1 : ℝ))] else [])

/-- Phase 1 of an iteration (solver.js lines 561-575): recompute every node's
temperature and local fluid properties (gases), or install the input fluid as
every node's local fluid (liquids). -/
def updateLocalState (ctx : SolverCtx) (s : SolverState) : SolverState :=
  if ctx.fluid.type = "gas" then
    ctx.nodes.foldl
      (fun st node =>
        let P_node := st.pressures node.id
        let T_node :=
          isentropicTemperature ctx.inletTemperature ctx.inletPressure P_node ctx.gamma
        { st with
            temperatures := Function.update st.temperatures node.id T_node,
            localFluids :=
              Function.update st.localFluids node.id
                (some (getLocalFluidProperties ctx.fluid P_node T_node)) })
      s
  else
    ctx.nodes.foldl
      (fun st node =>
        { st with localFluids := Function.update st.localFluids node.id (some ctx.fluid) })
      s

/-- `Q = Math.sign(dP) * Math.sqrt(Math.abs(dP) / (R + 1e-10))` with the JS
`Infinity` resistance giving zero flow. -/
def qFromResistance (dP : ℝ) (R : EReal) : ℝ :=
  if R = ⊤ then 0 else Real.sign dP * Real.sqrt (|dP| / (R.toReal + 1e-10))

/-- Phase 2 of an iteration (solver.js lines 577-617): per-pipe flow update,
using the restriction model with choke detection when a valve/orifice is
present and the fluid is a gas or the downstream pressure is below the local
vapor pressure, and the quadratic resistance model otherwise. -/
def updateFlows (ctx : SolverCtx) (s : SolverState) : SolverState :=
  ctx.pipes.foldl
    (fun st pipe =>
      let P1 := st.pressures pipe.fromNode
      let P2 := st.pressures pipe.toNode
      let dP := P1 - P2
      let upstreamNode := if 0 ≤ dP then pipe.fromNode else pipe.toNode
      let localFluid := (st.localFluids upstreamNode).getD ctx.fluid
      let A := pipeArea pipe
      let valveCdA := getValveCdA pipe.valve pipe.diameter A
      let orificeDiam := (pipe.orifice.bind Orifice.diameter).getD 0
      let hasRestriction := valveCdA.isSome = true ∨ 0 < orificeDiam
      if hasRestriction ∧ (localFluid.type = "gas" ∨ P2 < jsOr localFluid.vaporPressure 0) then
        let effectiveCdA :=
          jsOr valveCdA
            (jsOr (pipe.orifice.bind Orifice.Cd) 0.62 * Real.pi *
              (jsOr (pipe.orifice.bind Orifice.diameter) pipe.diameter / 2) ^ 2)
        let result := restrictionMassFlow 1 effectiveCdA (max P1 P2) (min P1 P2) localFluid
        let massFlow := if 0 ≤ dP then result.massFlow else -result.massFlow
        let Q := massFlow / localFluid.density
        { st with
            flowRates := Function.update st.flowRates pipe.id Q,
            choked := Function.update st.choked pipe.id (result.isChoked, result.flowRegime) }
      else
        let R := pipeResistance pipe localFluid
        let Q := qFromResistance dP R
        { st with
            flowRates := Function.update st.flowRates pipe.id Q,
            choked :=
              Function.update st.choked pipe.id
                (false, if localFluid.type = "gas" then "subsonic_gas" else "incompressible") })
    s

/-- The `1/(2*R*absQ)` Newton sensitivity with `R = Infinity` contributing 0. -/
def sensitivity (R : EReal) (absQ : ℝ) : ℝ :=
  if R = ⊤ then 0 else 1 / (2 * R.toReal * absQ)

/-- The body of the junction-pressure update loop (solver.js lines 620-651),
threading `(state, maxError)`. -/
def junctionStep (ctx : SolverCtx) (acc : SolverState × ℝ) (node : Node) : SolverState × ℝ :=
  let connections := connectionsOf ctx.pipes node.id
  if connections.length = 0 then acc
  else
    let st := acc.1
    let localFluid := (st.localFluids node.id).getD ctx.fluid
    let flowSum :=
      connections.foldl (fun sum c => sum + st.flowRates c.1.id * c.2) 0
    let dFlowdP :=
      connections.foldl
        (fun sum c =>
          if (st.choked c.1.id).1 = true then sum
          else
            let R := pipeResistance c.1 localFluid
            let absQ := |st.flowRates c.1.id|
            if 1e-10 < absQ then sum + sensitivity R absQ else sum + 1e6)
        0
    if 1e-10 < |dFlowdP| then
      let correction := -flowSum / dFlowdP * 0.5
      ({ st with
          pressures :=
            Function.update st.pressures node.id
              (max 100 (st.pressures node.id + correction)) },
        max acc.2 |flowSum|)
    else acc

/-- Phase 3 of an iteration: update every junction's pressure and return the
iteration's maximum junction mass imbalance (`maxError`). -/
def updatePressures (ctx : SolverCtx) (s : SolverState) : SolverState × ℝ :=
  ctx.internalNodes.foldl (junctionStep ctx) (s, 0)

/-- One pass of the iterative solver loop, returning the updated state and the
pass's `maxError` residual. -/
def iterStep (ctx : SolverCtx) (s : SolverState) : SolverState × ℝ :=
  updatePressures ctx (updateFlows ctx (updateLocalState ctx s))

/-- The state after `k` full passes (no early exit; the loop below stops at
the first pass whose residual is below tolerance, so on the converged prefix
this agrees with the loop's trajectory). -/
def stepState (ctx : SolverCtx) (s : SolverState) : SolverState :=
  (iterStep ctx s).1

/-- The `maxError` residual produced by one pass from state `s`. -/
def stepError (ctx : SolverCtx) (s : SolverState) : ℝ :=
  (iterStep ctx s).2

/-- Residual of pass `k+1` along the trajectory started at `s`. -/
def trajError (ctx : SolverCtx) (s : SolverState) (k : ℕ) : ℝ :=
  stepError ctx ((stepState ctx)^[k] s)

/-- The iteration loop of `solveNetwork` (solver.js lines 550-657):
`maxIterations = 150`, `tolerance = 1e-6`, breaking with `converged = true`
as soon as a pass's `maxError` drops below tolerance. -/
def solveLoop (ctx : SolverCtx) : ℕ → SolverState → SolverState × Bool
  | 0, s => (s, false)
  | fuel + 1, s =>
    let r := iterStep ctx s
    if r.2 < 1e-6 then (r.1, true) else solveLoop ctx fuel r.1

/-- Per-node entry of the result object (solver.js lines 674-689). -/
structure NodeResult where
  pressure : ℝ
  pressureKPa : ℝ
  pressurePsi : ℝ
  temperature : ℝ
  temperatureC : ℝ
  density : ℝ
  viscosity : ℝ

/-- Per-pipe entry of the result object (solver.js lines 691-723). -/
structure PipeResult where
  flowRate : ℝ
  flowRateLPM : ℝ
  massFlowRate : ℝ
  velocity : ℝ
  pressureDrop : ℝ
  isChoked : Bool
  flowRegime : String
  upstreamTemp : ℝ
  downstreamTemp : ℝ
  tempDropC : ℝ
  upstreamDensity : ℝ

/-- The object returned by `solveNetwork`.  The early validation-failure
returns carry only `success` and `error`, so the per-node and per-pipe maps
are `Option`s (`none` models the absent JS key).  Display-only echo fields
(`fluid`, `fluidType`, `inletConditions`, ...) are omitted. -/
structure SolveResult where
  success : Bool
  error : Option String
  nodes : Option (List (String × NodeResult))
  pipes : Option (List (String × PipeResult))

/-- Builds one per-node result entry. -/
def mkNodeResult (fluid : Fluid) (s : SolverState) (n : Node) : NodeResult :=
  let P := s.pressures n.id
  let T := s.temperatures n.id
  let localFluid := (s.localFluids n.id).getD fluid
  { pressure := P, pressureKPa := P / 1000, pressurePsi := P * 0.000145038,
    temperature := T, temperatureC := T - 273.15,
    density := localFluid.density, viscosity := localFluid.viscosity }

/-- Builds one per-pipe result entry. -/
def mkPipeResult (fluid : Fluid) (s : SolverState) (p : Pipe) : PipeResult :=
  let Q := s.flowRates p.id
  let area := pipeArea p
  let P1 := s.pressures p.fromNode
  let P2 := s.pressures p.toNode
  let upstreamNode := if P2 ≤ P1 then p.fromNode else p.toNode
  let localFluid := (s.localFluids upstreamNode).getD fluid
  let T1 := s.temperatures p.fromNode
  let T2 := s.temperatures p.toNode
  { flowRate := Q, flowRateLPM := Q * 60000,
    massFlowRate := Q * localFluid.density, velocity := Q / area,
    pressureDrop := P1 - P2,
    isChoked := (s.choked p.id).1, flowRegime := (s.choked p.id).2,
    upstreamTemp := T1, downstreamTemp := T2,
    tempDropC := if fluid.type = "gas" then -(T2 - T1) else 0,
    upstreamDensity := localFluid.density }

/-- Assembles the result object from the final solver state (solver.js lines
659-729). -/
def buildResults (nodes : List Node) (pipes : List Pipe) (fluid : Fluid)
    (sF : SolverState) (converged : Bool) : SolveResult :=
  { success := converged,
    error :=
      if converged then none
      else some "Solver did not converge - check network connectivity",
    nodes := some (nodes.map fun n => (n.id, mkNodeResult fluid sF n)),
    pipes := some (pipes.map fun p => (p.id, mkPipeResult fluid sF p)) }

/-- `solveNetwork` from solver.js: topology validation, initialization, the
capped iteration loop, and result assembly. -/
def solveNetwork (nodes : List Node) (pipes : List Pipe) (fluid : Fluid) : SolveResult :=
  if nodes.length < 2 ∨ pipes.length = 0 then
    { success := false, error := some "Need at least 2 nodes and 1 pipe",
      nodes := none, pipes := none }
  else if (boundaryNodesOf nodes).length < 1 then
    { success := false,
      error := some "Need at least 1 boundary node with fixed pressure",
      nodes := none, pipes := none }
  else
    let ctx := mkCtx nodes pipes fluid
    let r := solveLoop ctx 150 (initState nodes pipes fluid)
    buildResults nodes pipes fluid r.1 r.2

/-- Residual of pass `k+1` of a `solveNetwork` call: the maximum junction
mass imbalance `maxError` the code computes on that pass. -/
def solveTrajError (nodes : List Node) (pipes : List Pipe) (fluid : Fluid) (k : ℕ) : ℝ :=
  trajError (mkCtx nodes pipes fluid) (initState nodes pipes fluid) k

/-- Water at 20 °C, as produced by `getFluidProperties('water', 293.15)`. -/
def waterFluid : Fluid :=
  { type := "liquid", density := 998.2, viscosity := 0.001002,
    vaporPressure := some 2337, temperature := some 293.15, pressure := some 101325 }

/-- Air at 20 °C, as produced by `getFluidProperties('air', 293.15)`. -/
def airFluid : Fluid :=
  { type := "gas", density := 1.204, viscosity := 0.0000182, gamma := some 1.4,
    molecularWeight := some 0.02897, temperature := some 293.15,
    pressure := some 101325, Tref := some 293.15, sutherlandS := some 110.4 }

/-- A valve specified as `{specMode: 'cd_area', Cd: 0.62}` with no area. -/
def cdOnlyValve : Valve :=
  { specMode := some "cd_area", Cd := some 0.62 }

/-- A pipe carrying `cdOnlyValve`. -/
def cdOnlyPipe : Pipe :=
  { id := "p1", fromNode := "n1", toNode := "n2", diameter := 0.1, length := 10,
    valve := some cdOnlyValve }

/-- Sample boundary node at 200 kPa. -/
def nodeB1 : Node := { id := "n1", type := "boundary", pressure := 200000 }

/-- Sample boundary node at 100 kPa. -/
def nodeB2 : Node := { id := "n2", type := "boundary", pressure := 100000 }

/-- Sample two-node network. -/
def sampleNodes : List Node := [nodeB1, nodeB2]

/-- Sample plain pipe joining the two boundary nodes. -/
def samplePipe : Pipe :=
  { id := "p1", fromNode := "n1", toNode := "n2", diameter := 0.1, length := 10 }

/-- Sample one-pipe network. -/
def samplePipes : List Pipe := [samplePipe]

lemma criticalPressureRatio_pos {g : ℝ} (hg : 1 < g) : 0 < criticalPressureRatio g := by
  unfold criticalPressureRatio
  exact Real.rpow_pos_of_pos (div_pos (by norm_num) (by linarith)) _

lemma criticalPressureRatio_lt_one {g : ℝ} (hg : 1 < g) : criticalPressureRatio g < 1 := by
  unfold criticalPressureRatio
  refine Real.rpow_lt_one (le_of_lt (div_pos (by norm_num) (by linarith))) ?_ ?_
  · rw [div_lt_one (by linarith)]
    linarith
  · exact div_pos (by linarith) (by linarith)

lemma restriction_choked_gas {Cd area P1 P2 : ℝ} {fluid : Fluid}
    (hgas : fluid.type = "gas") (hg : 1 < jsOr fluid.gamma 1.4) (hP1 : 0 < P1)
    (h2 : P2 ≤ P1 * criticalPressureRatio (jsOr fluid.gamma 1.4)) :
    restrictionMassFlow Cd area P1 P2 fluid =
      { massFlow := chokedGasMassFlow Cd area P1 fluid, isChoked := true,
        flowRegime := "choked_gas" } := by
  have hrc1 : criticalPressureRatio (jsOr fluid.gamma 1.4) < 1 :=
    criticalPressureRatio_lt_one hg
  have hlt : P2 < P1 := lt_of_le_of_lt h2 (by nlinarith)
  have hratio : P2 / P1 ≤ criticalPressureRatio (jsOr fluid.gamma 1.4) := by
    rw [div_le_iff₀ hP1]
    rw [mul_comm P1 _] at h2
    exact h2
  unfold restrictionMassFlow
  rw [if_neg (not_le.mpr hlt), if_pos hgas, if_pos hratio]

/-- C3: for every `Cd`, `area`, fluid and pressures with `P1 ≤ P2`,
`restrictionMassFlow` returns zero mass flow, not choked, regime
`"no_flow"`. -/
theorem restriction_no_flow_of_le (Cd area P1 P2 : ℝ) (fluid : Fluid) (h : P1 ≤ P2) :
    restrictionMassFlow Cd area P1 P2 fluid =
      { massFlow := 0, isChoked := false, flowRegime := "no_flow" } := by
  unfold restrictionMassFlow
  rw [if_pos h]

/-- Witness for C3 at `Cd = 0.62`, `area = 0.001`, `P1 = 1 ≤ P2 = 2`, water. -/
theorem restriction_no_flow_of_le_witness :
    (1 : ℝ) ≤ 2 ∧
      restrictionMassFlow 0.62 0.001 1 2 waterFluid =
        { massFlow := 0, isChoked := false, flowRegime := "no_flow" } :=
  ⟨by norm_num, restriction_no_flow_of_le 0.62 0.001 1 2 waterFluid (by norm_num)⟩

/-- C4: for a gas fluid with specific-heat ratio above 1 and positive
upstream pressure, the mass flow returned by `restrictionMassFlow` is the
same for any two downstream pressures at or below `P1` times the critical
pressure ratio: choked gas flow is independent of the downstream pressure. -/
theorem chokedGas_flow_independent_of_P2 (Cd area P1 P2a P2b : ℝ) (fluid : Fluid)
    (hgas : fluid.type = "gas") (hg : 1 < jsOr fluid.gamma 1.4) (hP1 : 0 < P1)
    (ha : P2a ≤ P1 * criticalPressureRatio (jsOr fluid.gamma 1.4))
    (hb : P2b ≤ P1 * criticalPressureRatio (jsOr fluid.gamma 1.4)) :
    (restrictionMassFlow Cd area P1 P2a fluid).massFlow =
      (restrictionMassFlow Cd area P1 P2b fluid).massFlow := by
  rw [restriction_choked_gas hgas hg hP1 ha, restriction_choked_gas hgas hg hP1 hb]

/-- Witness for C4 on air with `P1 = 2`, `P2a = 0`, `P2b = -1`. -/
theorem chokedGas_flow_independent_of_P2_witness :
    (0 : ℝ) ≤ 2 * criticalPressureRatio (jsOr airFluid.gamma 1.4) ∧
    (-1 : ℝ) ≤ 2 * criticalPressureRatio (jsOr airFluid.gamma 1.4) ∧
    (restrictionMassFlow 0.62 0.001 2 0 airFluid).massFlow =
      (restrictionMassFlow 0.62 0.001 2 (-1) airFluid).massFlow := by
  have hg : 1 < jsOr airFluid.gamma 1.4 := by norm_num [airFluid, jsOr]
  have hrc := criticalPressureRatio_pos hg
  exact ⟨by linarith, by linarith,
    chokedGas_flow_independent_of_P2 0.62 0.001 2 0 (-1) airFluid rfl hg (by norm_num)
      (by linarith) (by linarith)⟩

/-- C5: with `P1 > P2` the choking comparisons are inclusive: a gas at
exactly `P2 = P1 · r*` is classified `choked_gas`, a liquid at exactly
`P2 = Pv` is classified `choked_liquid`. -/
theorem choke_boundary_tiebreak (Cd area P1 P2 : ℝ) (fluid : Fluid) :
    (fluid.type = "gas" → P2 = P1 * criticalPressureRatio (jsOr fluid.gamma 1.4) →
      P2 < P1 →
      (restrictionMassFlow Cd area P1 P2 fluid).isChoked = true ∧
        (restrictionMassFlow Cd area P1 P2 fluid).flowRegime = "choked_gas") ∧
    (fluid.type = "liquid" → P2 = jsOr fluid.vaporPressure 0 → P2 < P1 →
      (restrictionMassFlow Cd area P1 P2 fluid).isChoked = true ∧
        (restrictionMassFlow Cd area P1 P2 fluid).flowRegime = "choked_liquid") := by
  constructor
  · intro hgas heq hlt
    have hP1ne : P1 ≠ 0 := by
      intro h0
      rw [h0, zero_mul] at heq
      rw [heq, h0] at hlt
      exact lt_irrefl 0 hlt
    have hratio : P2 / P1 ≤ criticalPressureRatio (jsOr fluid.gamma 1.4) := by
      rw [heq, mul_comm, mul_div_assoc, div_self hP1ne, mul_one]
    unfold restrictionMassFlow
    rw [if_neg (not_le.mpr hlt), if_pos hgas, if_pos hratio]
    exact ⟨rfl, rfl⟩
  · intro hliq heq hlt
    have hgas : ¬ fluid.type = "gas" := by
      rw [hliq]
      decide
    unfold restrictionMassFlow
    rw [if_neg (not_le.mpr hlt), if_neg hgas, if_pos (le_of_eq heq)]
    exact ⟨rfl, rfl⟩

/-- Witness for C5: air at exactly the critical ratio, water at exactly the
vapor pressure. -/
theorem choke_boundary_tiebreak_witness :
    (criticalPressureRatio (jsOr airFluid.gamma 1.4) < 1 ∧
      (restrictionMassFlow 0.62 0.001 1
          (criticalPressureRatio (jsOr airFluid.gamma 1.4)) airFluid).isChoked = true ∧
      (restrictionMassFlow 0.62 0.001 1
          (criticalPressureRatio (jsOr airFluid.gamma 1.4)) airFluid).flowRegime =
        "choked_gas") ∧
    ((2337 : ℝ) = jsOr waterFluid.vaporPressure 0 ∧
      (restrictionMassFlow 0.62 0.001 3000 2337 waterFluid).isChoked = true ∧
      (restrictionMassFlow 0.62 0.001 3000 2337 waterFluid).flowRegime =
        "choked_liquid") := by
  have hg : 1 < jsOr airFluid.gamma 1.4 := by norm_num [airFluid, jsOr]
  have hlt := criticalPressureRatio_lt_one hg
  have hveq : (2337 : ℝ) = jsOr waterFluid.vaporPressure 0 := by
    norm_num [waterFluid, jsOr]
  obtain ⟨hga, hgb⟩ :=
    (choke_boundary_tiebreak 0.62 0.001 1
        (criticalPressureRatio (jsOr airFluid.gamma 1.4)) airFluid).1
      rfl (one_mul _).symm hlt
  obtain ⟨hla, hlb⟩ :=
    (choke_boundary_tiebreak 0.62 0.001 3000 2337 waterFluid).2
      rfl hveq (by norm_num [waterFluid, jsOr])
  exact ⟨⟨hlt, hga, hgb⟩, ⟨hveq, hla, hlb⟩⟩

/-- Counterexample to C7 as stated: at `Re = -64 < 2300` the code returns the
`0.02` fallback, which differs from `64 / Re = -1`. -/
theorem frictionFactor_laminar_counterexample :
    frictionFactor (-64) 0.05 0.000045 ≠ 64 / (-64) := by
  have hval : frictionFactor (-64) 0.05 0.000045 = 0.02 := by
    unfold frictionFactor
    rw [if_pos (by norm_num : (-64 : ℝ) < 2300), if_neg (by norm_num : ¬(0 : ℝ) < -64)]
  rw [hval]
  norm_num

/-- C7 (amended): for every `0 < Re < 2300`, `frictionFactor` returns
`64 / Re` exactly; for `Re ≤ 0` the code returns the `0.02` fallback
instead. -/
theorem frictionFactor_laminar (Re diameter roughness : ℝ)
    (h0 : 0 < Re) (h1 : Re < 2300) :
    frictionFactor Re diameter roughness = 64 / Re := by
  unfold frictionFactor
  rw [if_pos h1, if_pos h0]

/-- Witness for the amended C7 at `Re = 100`. -/
theorem frictionFactor_laminar_witness :
    (0 : ℝ) < 100 ∧ (100 : ℝ) < 2300 ∧
      frictionFactor 100 0.05 0.000045 = 64 / 100 :=
  ⟨by norm_num, by norm_num,
    frictionFactor_laminar 100 0.05 0.000045 (by norm_num) (by norm_num)⟩

/-- C9: for a liquid with `P2 < P1 ≤ Pv`, the result is classified
`choked_liquid` with `isChoked = true`, yet the mass flow is zero because the
effective pressure drop `P1 - Pv` is non-positive. -/
theorem chokedLiquid_zero_flow_at_low_upstream (Cd area P1 P2 : ℝ) (fluid : Fluid)
    (hliq : fluid.type = "liquid") (h21 : P2 < P1)
    (h1v : P1 ≤ jsOr fluid.vaporPressure 0) :
    restrictionMassFlow Cd area P1 P2 fluid =
      { massFlow := 0, isChoked := true, flowRegime := "choked_liquid" } := by
  have hgas : ¬ fluid.type = "gas" := by
    rw [hliq]
    decide
  have hflow : chokedLiquidMassFlow Cd area P1 fluid = 0 := by
    unfold chokedLiquidMassFlow
    rw [if_pos (sub_nonpos.mpr h1v)]
  unfold restrictionMassFlow
  rw [if_neg (not_le.mpr h21), if_neg hgas,
    if_pos (le_of_lt (lt_of_lt_of_le h21 h1v)), hflow]

/-- Witness for C9: water with `Pv = 2337`, `P1 = 2000`, `P2 = 1000`. -/
theorem chokedLiquid_zero_flow_at_low_upstream_witness :
    (1000 : ℝ) < 2000 ∧ (2000 : ℝ) ≤ jsOr waterFluid.vaporPressure 0 ∧
      restrictionMassFlow 0.62 0.001 2000 1000 waterFluid =
        { massFlow := 0, isChoked := true, flowRegime := "choked_liquid" } :=
  ⟨by norm_num, by norm_num [waterFluid, jsOr],
    chokedLiquid_zero_flow_at_low_upstream 0.62 0.001 2000 1000 waterFluid rfl
      (by norm_num) (by norm_num [waterFluid, jsOr])⟩

/-- C10: `isentropicTemperature` returns `T1` unchanged whenever `T1 ≤ 0`,
`P1 ≤ 0` or `P2 ≤ 0`; on all other inputs the pressure ratio fed to the
fractional power is strictly positive. -/
theorem isentropicTemperature_guard (T1 P1 P2 g : ℝ) :
    (T1 ≤ 0 ∨ P1 ≤ 0 ∨ P2 ≤ 0 → isentropicTemperature T1 P1 P2 g = T1) ∧
    (0 < T1 → 0 < P1 → 0 < P2 →
      0 < P2 / P1 ∧
        isentropicTemperature T1 P1 P2 g = T1 * (P2 / P1) ^ ((g - 1) / g)) := by
  constructor
  · intro h
    unfold isentropicTemperature
    rw [if_pos]
    tauto
  · intro hT hP1 hP2
    refine ⟨div_pos hP2 hP1, ?_⟩
    unfold isentropicTemperature
    rw [if_neg]
    push_neg
    exact ⟨hP1, hP2, hT⟩

/-- Witness for C10 at `T1 = -1` (guard) and at `(300, 200, 100)` (power
branch). -/
theorem isentropicTemperature_guard_witness :
    isentropicTemperature (-1) 5 3 1.4 = -1 ∧
      (0 < (100 : ℝ) / 200 ∧
        isentropicTemperature 300 200 100 1.4 =
          300 * ((100 : ℝ) / 200) ^ (((1.4 : ℝ) - 1) / 1.4)) :=
  ⟨(isentropicTemperature_guard (-1) 5 3 1.4).1 (Or.inl (by norm_num)),
    (isentropicTemperature_guard 300 200 100 1.4).2 (by norm_num) (by norm_num)
      (by norm_num)⟩

/-- C2: with fewer than 2 nodes, no pipes, or no boundary node,
`solveNetwork` returns immediately with `success = false`, a descriptive
error message, and no per-node or per-pipe results. -/
theorem solveNetwork_validation (nodes : List Node) (pipes : List Pipe) (fluid : Fluid)
    (h : nodes.length < 2 ∨ pipes = [] ∨ ∀ n ∈ nodes, n.type ≠ "boundary") :
    (solveNetwork nodes pipes fluid).success = false ∧
    (solveNetwork nodes pipes fluid).error.isSome = true ∧
    (solveNetwork nodes pipes fluid).nodes = none ∧
    (solveNetwork nodes pipes fluid).pipes = none := by
  unfold solveNetwork
  rcases h with h | h | h
  · rw [if_pos (Or.inl h)]
    exact ⟨rfl, rfl, rfl, rfl⟩
  · rw [if_pos (Or.inr (by simp [h]))]
    exact ⟨rfl, rfl, rfl, rfl⟩
  · by_cases h12 : nodes.length < 2 ∨ pipes.length = 0
    · rw [if_pos h12]
      exact ⟨rfl, rfl, rfl, rfl⟩
    · have hempty : boundaryNodesOf nodes = [] := by
        refine List.filter_eq_nil_iff.mpr fun a ha => ?_
        simpa using h a ha
      rw [if_neg h12, if_pos (by rw [hempty]; simp)]
      exact ⟨rfl, rfl, rfl, rfl⟩

/-- Witness for C2 on the empty network. -/
theorem solveNetwork_validation_witness :
    ([] : List Node).length < 2 ∧
      (solveNetwork [] [] waterFluid).success = false ∧
      (solveNetwork [] [] waterFluid).error.isSome = true ∧
      (solveNetwork [] [] waterFluid).nodes = none ∧
      (solveNetwork [] [] waterFluid).pipes = none :=
  ⟨by simp, solveNetwork_validation [] [] waterFluid (Or.inl (by simp))⟩

lemma pipeValveResistance_cdArea_noArea (pipe : Pipe) (v : Valve) (fluid : Fluid) (c : ℝ)
    (hv : pipe.valve = some v) (hm : v.specMode = some "cd_area") (hc : v.Cd = some c)
    (harea : v.area = none) (hcpos : 0 < c) (hd : 0 < pipe.diameter) :
    pipeValveResistance pipe fluid =
      ((fluid.density / (2 * (c * pipeArea pipe) * (c * pipeArea pipe)) : ℝ) : EReal) ∧
    pipeValveResistance pipe fluid ≠ ⊤ := by
  have hA : (0 : ℝ) < pipeArea pipe := by
    unfold pipeArea
    have h2 : (0 : ℝ) < (pipe.diameter / 2) ^ 2 := by positivity
    exact mul_pos Real.pi_pos h2
  have hng : ¬(c ≤ 0 ∨ pipeArea pipe ≤ 0) := by
    push_neg
    exact ⟨hcpos, hA⟩
  have hcd : valveResistanceFromCdA c (pipeArea pipe) fluid =
      ((fluid.density / (2 * (c * pipeArea pipe) * (c * pipeArea pipe)) : ℝ) : EReal) := by
    unfold valveResistanceFromCdA
    rw [if_neg hng]
  have hmain : pipeValveResistance pipe fluid =
      ((fluid.density / (2 * (c * pipeArea pipe) * (c * pipeArea pipe)) : ℝ) : EReal) := by
    unfold pipeValveResistance
    rw [hv]
    simp only [hm, harea, hc, jsStrTruthy, jsOr, reduceIte]
    rw [if_neg (ne_of_gt hcpos), hcd]
    have hcond : ("cd_area" : String) ≠ "" ∧ (some "cd_area" : Option String) ≠ some "none" :=
      ⟨by decide, by decide⟩
    rw [if_pos hcond, if_neg (show ¬("cd_area" : String) = "cd_diameter" by decide)]
  exact ⟨hmain, by rw [hmain]; exact EReal.coe_ne_top _⟩

/-- Counterexample to C8 as stated: for a pipe with a valve specified as
`cd_area` with `Cd` alone and no area, the valve term of `pipeResistance` is
not `+∞` — the code falls back to the pipe's own cross-section
(`valve.area || pipeArea`), giving a finite resistance. -/
theorem cdArea_missing_area_counterexample :
    pipeValveResistance cdOnlyPipe waterFluid ≠ ⊤ :=
  (pipeValveResistance_cdArea_noArea cdOnlyPipe cdOnlyValve waterFluid 0.62 rfl rfl rfl
    rfl (by norm_num) (by norm_num [cdOnlyPipe])).2

/-- C8 (amended): a valve in `cd_area` mode with a positive `Cd` and no area
resolves against the pipe's own cross-sectional area, so for a pipe of
positive diameter the valve term is the finite `ρ / (2·(Cd·A_pipe)²)`, not
`+∞`. -/
theorem cdArea_missing_area_falls_back (pipe : Pipe) (v : Valve) (fluid : Fluid) (c : ℝ)
    (hv : pipe.valve = some v) (hm : v.specMode = some "cd_area") (hc : v.Cd = some c)
    (harea : v.area = none) (hcpos : 0 < c) (hd : 0 < pipe.diameter) :
    pipeValveResistance pipe fluid =
      ((fluid.density / (2 * (c * pipeArea pipe) * (c * pipeArea pipe)) : ℝ) : EReal) ∧
    pipeValveResistance pipe fluid ≠ ⊤ :=
  pipeValveResistance_cdArea_noArea pipe v fluid c hv hm hc harea hcpos hd

/-- Witness for the amended C8 on `cdOnlyPipe` and water. -/
theorem cdArea_missing_area_falls_back_witness :
    (0 : ℝ) < 0.62 ∧ (0 : ℝ) < cdOnlyPipe.diameter ∧
      (pipeValveResistance cdOnlyPipe waterFluid =
        ((waterFluid.density /
            (2 * (0.62 * pipeArea cdOnlyPipe) * (0.62 * pipeArea cdOnlyPipe)) : ℝ) : EReal) ∧
      pipeValveResistance cdOnlyPipe waterFluid ≠ ⊤) :=
  ⟨by norm_num, by norm_num [cdOnlyPipe],
    cdArea_missing_area_falls_back cdOnlyPipe cdOnlyValve waterFluid 0.62 rfl rfl rfl
      rfl (by norm_num) (by norm_num [cdOnlyPipe])⟩

lemma foldl_pressures_eq {α : Type} (g : SolverState → α → SolverState)
    (hg : ∀ st a, (g st a).pressures = st.pressures) :
    ∀ (l : List α) (s : SolverState), (l.foldl g s).pressures = s.pressures
  | [], _ => rfl
  | a :: t, s => by
    rw [List.foldl_cons, foldl_pressures_eq g hg t (g s a), hg]

lemma updateLocalState_pressures (ctx : SolverCtx) (s : SolverState) :
    (updateLocalState ctx s).pressures = s.pressures := by
  unfold updateLocalState
  split
  · apply foldl_pressures_eq
    intro st a
    rfl
  · apply foldl_pressures_eq
    intro st a
    rfl

lemma updateFlows_pressures (ctx : SolverCtx) (s : SolverState) :
    (updateFlows ctx s).pressures = s.pressures := by
  unfold updateFlows
  apply foldl_pressures_eq
  intro st a
  dsimp only
  split <;> split <;> rfl

lemma junctionStep_pressures_ne (ctx : SolverCtx) (acc : SolverState × ℝ) (node : Node)
    (x : String) (hx : node.id ≠ x) :
    (junctionStep ctx acc node).1.pressures x = acc.1.pressures x := by
  unfold junctionStep
  dsimp only
  split
  · rfl
  · split
    · exact Function.update_noteq (Ne.symm hx) _ _
    · rfl

lemma foldl_junctionStep_pressures (ctx : SolverCtx) :
    ∀ (l : List Node) (acc : SolverState × ℝ) (x : String), (∀ n ∈ l, n.id ≠ x) →
      (l.foldl (junctionStep ctx) acc).1.pressures x = acc.1.pressures x
  | [], _, _, _ => rfl
  | n :: t, acc, x, h => by
    rw [List.foldl_cons,
      foldl_junctionStep_pressures ctx t _ x fun m hm => h m (List.mem_cons_of_mem _ hm),
      junctionStep_pressures_ne ctx acc n x (h n (List.mem_cons_self _ _))]

lemma iterStep_pressures_eq (ctx : SolverCtx) (s : SolverState) (x : String)
    (hx : ∀ n ∈ ctx.internalNodes, n.id ≠ x) :
    (iterStep ctx s).1.pressures x = s.pressures x := by
  unfold iterStep updatePressures
  rw [foldl_junctionStep_pressures ctx ctx.internalNodes _ x hx]
  dsimp only
  rw [updateFlows_pressures, updateLocalState_pressures]

lemma internal_id_ne_boundary (nodes : List Node) (pipes : List Pipe) (fluid : Fluid)
    (hnd : (nodes.map Node.id).Nodup) (b : Node) (hb : b ∈ nodes)
    (hbt : b.type = "boundary") :
    ∀ n ∈ (mkCtx nodes pipes fluid).internalNodes, n.id ≠ b.id := by
  intro n hn heq
  have hmem : n ∈ nodes ∧ (n.type == "junction") = true := by
    have hn' : n ∈ nodes.filter (fun m => m.type == "junction") := hn
    exact List.mem_filter.mp hn'
  have hne : n = b := List.inj_on_of_nodup_map hnd hmem.1 hb heq
  have : b.type = "junction" := by
    rw [← hne]
    simpa using hmem.2
  rw [hbt] at this
  exact absurd this (by decide)

lemma foldl_update_apply_of_not_mem (g : Node → ℝ) :
    ∀ (l : List Node) (p0 : String → ℝ) (x : String), x ∉ l.map Node.id →
      (l.foldl (fun p n => Function.update p n.id (g n)) p0) x = p0 x
  | [], _, _, _ => rfl
  | n :: t, p0, x, h => by
    have h1 : x ≠ n.id ∧ x ∉ t.map Node.id := by
      rw [List.map_cons] at h
      simpa [List.mem_cons, not_or] using h
    rw [List.foldl_cons, foldl_update_apply_of_not_mem g t _ x h1.2,
      Function.update_noteq h1.1]

lemma foldl_update_apply_of_mem (g : Node → ℝ) :
    ∀ (l : List Node) (p0 : String → ℝ) (b : Node), (l.map Node.id).Nodup → b ∈ l →
      (l.foldl (fun p n => Function.update p n.id (g n)) p0) b.id = g b
  | [], _, b, _, hb => absurd hb (List.not_mem_nil b)
  | n :: t, p0, b, hnd, hb => by
    rw [List.map_cons, List.nodup_cons] at hnd
    rw [List.foldl_cons]
    rcases List.mem_cons.mp hb with heq | hbt
    · subst heq
      rw [foldl_update_apply_of_not_mem g t _ b.id hnd.1, Function.update_same]
    · exact foldl_update_apply_of_mem g t _ b hnd.2 hbt

lemma initState_boundary_pressure (nodes : List Node) (pipes : List Pipe) (fluid : Fluid)
    (hnd : (nodes.map Node.id).Nodup) (b : Node) (hb : b ∈ nodes)
    (hbt : b.type = "boundary") :
    (initState nodes pipes fluid).pressures b.id = b.pressure := by
  have h := foldl_update_apply_of_mem
    (fun n : Node =>
      if n.type = "boundary" then n.pressure
      else (boundaryNodesOf nodes).foldl (fun s m => s + m.pressure) 0 /
        ((boundaryNodesOf nodes).length : ℝ))
    nodes (fun _ => 0) b hnd hb
  dsimp only at h
  rw [if_pos hbt] at h
  exact h

lemma stepState_boundary_pressure (nodes : List Node) (pipes : List Pipe) (fluid : Fluid)
    (hnd : (nodes.map Node.id).Nodup) (s : SolverState) (b : Node) (hb : b ∈ nodes)
    (hbt : b.type = "boundary") (h : s.pressures b.id = b.pressure) :
    (stepState (mkCtx nodes pipes fluid) s).pressures b.id = b.pressure := by
  rw [stepState,
    iterStep_pressures_eq _ _ _ (internal_id_ne_boundary nodes pipes fluid hnd b hb hbt)]
  exact h

lemma iterate_boundary_pressure (nodes : List Node) (pipes : List Pipe) (fluid : Fluid)
    (hnd : (nodes.map Node.id).Nodup) (b : Node) (hb : b ∈ nodes)
    (hbt : b.type = "boundary") :
    ∀ k : ℕ,
      ((stepState (mkCtx nodes pipes fluid))^[k] (initState nodes pipes fluid)).pressures b.id
        = b.pressure
  | 0 => by
    rw [Function.iterate_zero_apply]
    exact initState_boundary_pressure nodes pipes fluid hnd b hb hbt
  | k + 1 => by
    rw [Function.iterate_succ_apply']
    exact stepState_boundary_pressure nodes pipes fluid hnd _ b hb hbt
      (iterate_boundary_pressure nodes pipes fluid hnd b hb hbt k)

lemma solveLoop_boundary_pressure (nodes : List Node) (pipes : List Pipe) (fluid : Fluid)
    (hnd : (nodes.map Node.id).Nodup) (b : Node) (hb : b ∈ nodes)
    (hbt : b.type = "boundary") :
    ∀ (fuel : ℕ) (s : SolverState), s.pressures b.id = b.pressure →
      ((solveLoop (mkCtx nodes pipes fluid) fuel s).1).pressures b.id = b.pressure
  | 0, _, h => h
  | fuel + 1, s, h => by
    by_cases hc : (iterStep (mkCtx nodes pipes fluid) s).2 < 1e-6
    · rw [show solveLoop (mkCtx nodes pipes fluid) (fuel + 1) s =
          ((iterStep (mkCtx nodes pipes fluid) s).1, true) from by
        simp only [solveLoop]
        rw [if_pos hc]]
      exact stepState_boundary_pressure nodes pipes fluid hnd s b hb hbt h
    · rw [show solveLoop (mkCtx nodes pipes fluid) (fuel + 1) s =
          solveLoop (mkCtx nodes pipes fluid) fuel (iterStep (mkCtx nodes pipes fluid) s).1 from by
        simp only [solveLoop]
        rw [if_neg hc]]
      exact solveLoop_boundary_pressure nodes pipes fluid hnd b hb hbt fuel _
        (stepState_boundary_pressure nodes pipes fluid hnd s b hb hbt h)

lemma trajError_zero (ctx : SolverCtx) (s : SolverState) :
    trajError ctx s 0 = stepError ctx s := by
  rw [trajError, Function.iterate_zero_apply]

lemma trajError_succ (ctx : SolverCtx) (s : SolverState) (k : ℕ) :
    trajError ctx (stepState ctx s) k = trajError ctx s (k + 1) := by
  rw [trajError, trajError, Function.iterate_succ_apply]

lemma solveLoop_converged_iff (ctx : SolverCtx) :
    ∀ (fuel : ℕ) (s : SolverState),
      (solveLoop ctx fuel s).2 = true ↔ ∃ k < fuel, trajError ctx s k < 1e-6
  | 0, s => by simp [solveLoop]
  | fuel + 1, s => by
    by_cases hc : (iterStep ctx s).2 < 1e-6
    · rw [show solveLoop ctx (fuel + 1) s = ((iterStep ctx s).1, true) from by
        simp only [solveLoop]
        rw [if_pos hc]]
      constructor
      · intro _
        exact ⟨0, Nat.succ_pos fuel, by rw [trajError_zero]; exact hc⟩
      · intro _
        rfl
    · rw [show solveLoop ctx (fuel + 1) s = solveLoop ctx fuel (iterStep ctx s).1 from by
        simp only [solveLoop]
        rw [if_neg hc]]
      rw [solveLoop_converged_iff ctx fuel (iterStep ctx s).1]
      constructor
      · rintro ⟨k, hk, he⟩
        refine ⟨k + 1, by omega, ?_⟩
        rw [← trajError_succ]
        exact he
      · rintro ⟨k, hk, he⟩
        cases k with
        | zero =>
          rw [trajError_zero] at he
          exact absurd he hc
        | succ m =>
          refine ⟨m, by omega, ?_⟩
          show trajError ctx (stepState ctx s) m < 1e-6
          rw [trajError_succ]
          exact he

lemma solveNetwork_valid_eq (nodes : List Node) (pipes : List Pipe) (fluid : Fluid)
    (h1 : 2 ≤ nodes.length) (h2 : pipes ≠ [])
    (h3 : ∃ n ∈ nodes, n.type = "boundary") :
    solveNetwork nodes pipes fluid =
      buildResults nodes pipes fluid
        (solveLoop (mkCtx nodes pipes fluid) 150 (initState nodes pipes fluid)).1
        (solveLoop (mkCtx nodes pipes fluid) 150 (initState nodes pipes fluid)).2 := by
  have hg1 : ¬(nodes.length < 2 ∨ pipes.length = 0) := by
    push_neg
    refine ⟨by omega, ?_⟩
    simpa [List.length_eq_zero] using h2
  have hbne : boundaryNodesOf nodes ≠ [] := by
    obtain ⟨n, hn, ht⟩ := h3
    exact List.ne_nil_of_mem (List.mem_filter.mpr ⟨hn, by simp [ht]⟩)
  have hg2 : ¬((boundaryNodesOf nodes).length < 1) := by
    have := List.length_pos.mpr hbne
    omega
  unfold solveNetwork
  rw [if_neg hg1, if_neg hg2]

/-- C1: on topologically valid input (`≥ 2` nodes, `≥ 1` pipe, `≥ 1` boundary
node) `solveNetwork` always returns per-node and per-pipe entries for every
input node and pipe — even on non-convergence — its `success` flag is `true`
exactly when some pass within the 150-iteration budget had its maximum
junction mass imbalance below `1e-6`, and on `success = false` the result
carries the convergence-failure error message. -/
theorem solveNetwork_postconditions (nodes : List Node) (pipes : List Pipe) (fluid : Fluid)
    (h1 : 2 ≤ nodes.length) (h2 : pipes ≠ [])
    (h3 : ∃ n ∈ nodes, n.type = "boundary") :
    (∃ L, (solveNetwork nodes pipes fluid).nodes = some L ∧
        ∀ n ∈ nodes, ∃ r, (n.id, r) ∈ L) ∧
    (∃ L, (solveNetwork nodes pipes fluid).pipes = some L ∧
        ∀ p ∈ pipes, ∃ r, (p.id, r) ∈ L) ∧
    ((solveNetwork nodes pipes fluid).success = true ↔
        ∃ k < 150, solveTrajError nodes pipes fluid k < 1e-6) ∧
    ((solveNetwork nodes pipes fluid).success = false →
        (solveNetwork nodes pipes fluid).error =
          some "Solver did not converge - check network connectivity") := by
  have hres := solveNetwork_valid_eq nodes pipes fluid h1 h2 h3
  refine ⟨?_, ?_, ?_, ?_⟩
  · refine ⟨nodes.map fun n =>
      (n.id, mkNodeResult fluid
        (solveLoop (mkCtx nodes pipes fluid) 150 (initState nodes pipes fluid)).1 n),
      by rw [hres]; rfl, ?_⟩
    intro n hn
    exact ⟨_, List.mem_map_of_mem _ hn⟩
  · refine ⟨pipes.map fun p =>
      (p.id, mkPipeResult fluid
        (solveLoop (mkCtx nodes pipes fluid) 150 (initState nodes pipes fluid)).1 p),
      by rw [hres]; rfl, ?_⟩
    intro p hp
    exact ⟨_, List.mem_map_of_mem _ hp⟩
  · rw [hres]
    show (solveLoop (mkCtx nodes pipes fluid) 150 (initState nodes pipes fluid)).2 = true ↔ _
    simp only [solveTrajError]
    exact solveLoop_converged_iff (mkCtx nodes pipes fluid) 150 (initState nodes pipes fluid)
  · rw [hres]
    intro hs
    have hfalse : (solveLoop (mkCtx nodes pipes fluid) 150 (initState nodes pipes fluid)).2
        = false := hs
    show (if (solveLoop (mkCtx nodes pipes fluid) 150 (initState nodes pipes fluid)).2 = true
        then none else some "Solver did not converge - check network connectivity") = _
    rw [hfalse]
    simp

/-- Witness for C1 on a two-boundary-node, one-pipe water network. -/
theorem solveNetwork_postconditions_witness :
    2 ≤ sampleNodes.length ∧ samplePipes ≠ [] ∧ (∃ n ∈ sampleNodes, n.type = "boundary") ∧
      (((solveNetwork sampleNodes samplePipes waterFluid).success = true ↔
          ∃ k < 150, solveTrajError sampleNodes samplePipes waterFluid k < 1e-6) ∧
        ((solveNetwork sampleNodes samplePipes waterFluid).success = false →
          (solveNetwork sampleNodes samplePipes waterFluid).error =
            some "Solver did not converge - check network connectivity")) := by
  have h3 : ∃ n ∈ sampleNodes, n.type = "boundary" :=
    ⟨nodeB1, by simp [sampleNodes], rfl⟩
  have h := solveNetwork_postconditions sampleNodes samplePipes waterFluid
    (by simp [sampleNodes]) (by simp [samplePipes]) h3
  exact ⟨by simp [sampleNodes], by simp [samplePipes], h3, h.2.2.1, h.2.2.2⟩

/-- C6: on valid input with caller-unique node ids, the pressure held for
every boundary node stays equal to that node's input pressure through every
iteration (only junction pressures are updated), and the returned result
reports exactly the input pressure for each boundary node. -/
theorem boundary_pressure_invariant (nodes : List Node) (pipes : List Pipe) (fluid : Fluid)
    (h1 : 2 ≤ nodes.length) (h2 : pipes ≠ [])
    (h3 : ∃ n ∈ nodes, n.type = "boundary")
    (hnd : (nodes.map Node.id).Nodup) :
    (∀ k : ℕ, ∀ b ∈ nodes, b.type = "boundary" →
        ((stepState (mkCtx nodes pipes fluid))^[k]
            (initState nodes pipes fluid)).pressures b.id = b.pressure) ∧
    (∃ L, (solveNetwork nodes pipes fluid).nodes = some L ∧
        ∀ b ∈ nodes, b.type = "boundary" →
          ∃ r, (b.id, r) ∈ L ∧ r.pressure = b.pressure) := by
  have hres := solveNetwork_valid_eq nodes pipes fluid h1 h2 h3
  constructor
  · intro k b hb hbt
    exact iterate_boundary_pressure nodes pipes fluid hnd b hb hbt k
  · refine ⟨nodes.map fun n =>
      (n.id, mkNodeResult fluid
        (solveLoop (mkCtx nodes pipes fluid) 150 (initState nodes pipes fluid)).1 n),
      by rw [hres]; rfl, ?_⟩
    intro b hb hbt
    refine ⟨_, List.mem_map_of_mem _ hb, ?_⟩
    show (solveLoop (mkCtx nodes pipes fluid) 150 (initState nodes pipes fluid)).1.pressures b.id
        = b.pressure
    exact solveLoop_boundary_pressure nodes pipes fluid hnd b hb hbt 150 _
      (initState_boundary_pressure nodes pipes fluid hnd b hb hbt)

/-- Witness for C6 on the sample two-boundary-node network. -/
theorem boundary_pressure_invariant_witness :
    (sampleNodes.map Node.id).Nodup ∧
      (∃ L, (solveNetwork sampleNodes samplePipes waterFluid).nodes = some L ∧
        ∀ b ∈ sampleNodes, b.type = "boundary" →
          ∃ r, (b.id, r) ∈ L ∧ r.pressure = b.pressure) := by
  have hnd : (sampleNodes.map Node.id).Nodup := by
    simp [sampleNodes, nodeB1, nodeB2]
  have h := boundary_pressure_invariant sampleNodes samplePipes waterFluid
    (by simp [sampleNodes]) (by simp [samplePipes])
    ⟨nodeB1, by simp [sampleNodes], rfl⟩ hnd
  exact ⟨hnd, h.2⟩

end FluidSolver
